import Mathlib

/-!
Verification development for the provider abstraction and local-model
streaming negotiation layer of the ai-shell command-line assistant.

The embedding is shallow: the TypeScript functions of
`src/helpers/providers.ts` and `src/helpers/local-stream.ts` are translated
into executable Lean definitions.  External effects (the `fetch` transport,
the host's `JSON.parse`) are passed in as explicit oracle functions, so each
network interaction of the source corresponds to one oracle application in
the embedding.  Error `throw`s become `Except.error`, and the thrown
`KnownError` messages are reproduced verbatim.
-/

namespace AiShell

/-- Models the JavaScript `s || d` fallback on strings: the empty string is
falsy, every other string is truthy. -/
def jsOrStr (s d : String) : String := if s = "" then d else s

/-- Models the JavaScript `m || d` fallback where `m : string | undefined`
(`undefined` and `""` both fall back to the default). -/
def jsOrOpt (m : Option String) (d : String) : String :=
  match m with
  | none => d
  | some s => jsOrStr s d

/-- Substring test on char lists, models JavaScript `String.includes`. -/
def containsSub (hay pat : List Char) : Bool :=
  match hay with
  | [] => pat.isEmpty
  | _ :: t => pat.isPrefixOf hay || containsSub t pat

/-- Models JavaScript `s.includes(pat)`. -/
def strContains (s pat : String) : Bool := containsSub s.toList pat.toList

/-- A role-tagged chat message (`{role, content}`). -/
structure ChatMessage where
  role : String
  content : String
deriving DecidableEq, Repr

/-- The three local wire dialects of `local-stream.ts`
(`'ollama' | 'openai' | 'lmstudio'`). -/
inductive LocalFormat where
  | ollama
  | lmstudio
  | openai
deriving DecidableEq, Repr

/-- String interpolation of a format value (the TS union is a string union,
so `s!` templates print these exact names). -/
def formatName : LocalFormat → String
  | LocalFormat.ollama => "ollama"
  | LocalFormat.lmstudio => "lmstudio"
  | LocalFormat.openai => "openai"

/-- Chat request URL per dialect (the `switch` in `createStreamWithFormat`). -/
def chatUrl (endpoint : String) : LocalFormat → String
  | LocalFormat.ollama => endpoint ++ "/api/chat"
  | LocalFormat.lmstudio => endpoint ++ "/v1/chat/completions"
  | LocalFormat.openai => endpoint ++ "/chat/completions"

/-- The ollama `options` object (`{temperature: 0.7, top_p: 0.9}`). -/
structure SamplingOptions where
  temperature : Rat
  top_p : Rat
deriving DecidableEq, Repr

/-- The JSON chat request body assembled by `createStreamWithFormat`.
Fields that a dialect does not set are `none` (absent from the JSON). -/
structure ChatBody where
  model : String
  messages : List ChatMessage
  stream : Bool
  options : Option SamplingOptions
  temperature : Option Rat
deriving DecidableEq, Repr

/-- The request body per dialect (the `switch` in `createStreamWithFormat`).
The decimal literals 0.7 and 0.9 of the source are the rationals 7/10 and
9/10. -/
def chatBody (model : String) (messages : List ChatMessage) (stream : Bool) :
    LocalFormat → ChatBody
  | LocalFormat.ollama =>
    { model := model, messages := messages, stream := stream,
      options := some { temperature := mkRat 7 10, top_p := mkRat 9 10 },
      temperature := none }
  | LocalFormat.lmstudio =>
    { model := model, messages := messages, stream := stream,
      options := none, temperature := some (mkRat 7 10) }
  | LocalFormat.openai =>
    { model := model, messages := messages, stream := stream,
      options := none, temperature := none }

/-- One `fetch` interaction.  `netError` is a rejected fetch promise (the
thrown error's message).  `resp` carries `response.ok`, whether
`response.body` is non-null, the `content-type` header, `statusText`, and
the result of `response.json()` on the body: `some j` is the parsed value
given by its canonical JSON serialization, `none` means the body is not
valid JSON so `response.json()` rejects. -/
inductive FetchOutcome where
  | netError (msg : String)
  | resp (ok : Bool) (hasBody : Bool) (contentType : String)
      (statusText : String) (json : Option String)
deriving DecidableEq, Repr

/-- The transport oracle: what the local server answers to a POST of a given
body at a given URL. -/
def ChatFetch : Type := String → ChatBody → FetchOutcome

/-- A completion stream as handed back to the caller: either the body of the
network response to the identified request, or the synthesized single-chunk
`Readable` of the non-streaming fallback (the fake stream pushes `chunk`
once and then ends, `push(null)`). -/
inductive LocalStream where
  | network (url : String) (body : ChatBody)
  | synthesized (chunk : String)
deriving DecidableEq, Repr

/-- The `LocalStreamResponse` interface of `local-stream.ts`. -/
structure LocalStreamResponse where
  stream : LocalStream
  format : LocalFormat
deriving DecidableEq, Repr

/-- The content-type gate of the ollama branch: accept as a true stream only
`application/x-ndjson` or `text/event-stream`. -/
def ctIsStream (ct : String) : Bool :=
  strContains ct "application/x-ndjson" || strContains ct "text/event-stream"

/-- Message of the error a rejected `response.json()` produces.  The exact
text is runtime-specific; the source never inspects it. -/
def jsonParseFailureMsg : String := "Unexpected end of JSON input"

/-- The `stream: false` retry of the ollama branch of
`createStreamWithFormat`: reissue `body` (already carrying `stream :=
false`) at the same URL; on a non-ok response `throw` the dialect failure;
on an ok response parse the JSON body and synthesize a fake single-chunk
stream wrapping it in one event-stream data line. -/
def ollamaNonStreamRetry (fetch : ChatFetch) (url : String) (body : ChatBody)
    (format : LocalFormat) : Except String LocalStreamResponse :=
  match fetch url body with
  | FetchOutcome.netError m => Except.error m
  | FetchOutcome.resp ok _ _ statusText json =>
    if ok then
      match json with
      | some j =>
        Except.ok { stream := LocalStream.synthesized ("data: " ++ j ++ "\n"),
                    format := format }
      | none => Except.error jsonParseFailureMsg
    else
      Except.error (formatName format ++ " request failed (non-stream): " ++ statusText)

/-- `LocalStreamHandler.createStreamWithFormat`: one dialect attempt.  The
streaming request is issued first; for ollama an ok response additionally
passes the content-type gate, otherwise (and on any non-ok ollama response)
the non-streaming retry runs; for the other dialects an ok response with a
body is accepted immediately and a failure throws the dialect error. -/
def createStreamWithFormat (fetch : ChatFetch) (endpoint model : String)
    (messages : List ChatMessage) (format : LocalFormat) :
    Except String LocalStreamResponse :=
  let url := chatUrl endpoint format
  let body := chatBody model messages true format
  let isOllama := format == LocalFormat.ollama
  match fetch url body with
  | FetchOutcome.netError m => Except.error m
  | FetchOutcome.resp ok hasBody contentType statusText _ =>
    if ok && hasBody && isOllama then
      if ctIsStream contentType then
        Except.ok { stream := LocalStream.network url body, format := format }
      else
        ollamaNonStreamRetry fetch url { body with stream := false } format
    else if ok && hasBody then
      Except.ok { stream := LocalStream.network url body, format := format }
    else if isOllama then
      ollamaNonStreamRetry fetch url { body with stream := false } format
    else
      Except.error (formatName format ++ " request failed: " ++ statusText)

/-- The aggregated `KnownError` message raised when every dialect fails. -/
def negotiationFailedMsg (endpoint : String) : String :=
  "Failed to connect to any local model server at " ++ endpoint ++
    ". Supported formats: Ollama, LM Studio, OpenAI-compatible"

/-- The `for (const fmt of formats)` loop of `createStream`: try each
dialect, absorb its failure, fall out to the aggregated error. -/
def tryFormats (fetch : ChatFetch) (endpoint model : String)
    (messages : List ChatMessage) : List LocalFormat → Except String LocalStreamResponse
  | [] => Except.error (negotiationFailedMsg endpoint)
  | f :: rest =>
    match createStreamWithFormat fetch endpoint model messages f with
    | Except.ok r => Except.ok r
    | Except.error _ => tryFormats fetch endpoint model messages rest

/-- `LocalStreamHandler.createStream`: a pinned format is attempted alone;
otherwise the dialects are tried in the fixed order ollama, lmstudio,
openai. -/
def createStream (fetch : ChatFetch) (endpoint model : String)
    (messages : List ChatMessage) (format : Option LocalFormat) :
    Except String LocalStreamResponse :=
  match format with
  | some f => createStreamWithFormat fetch endpoint model messages f
  | none => tryFormats fetch endpoint model messages
      [LocalFormat.ollama, LocalFormat.lmstudio, LocalFormat.openai]

/-- Model-listing URL per dialect (the `formats` table of `listModels`). -/
def modelsUrl (endpoint : String) : LocalFormat → String
  | LocalFormat.ollama => endpoint ++ "/api/tags"
  | LocalFormat.lmstudio => endpoint ++ "/v1/models"
  | LocalFormat.openai => endpoint ++ "/models"

/-- One model-listing probe: a rejected fetch, a non-ok response, an ok
response whose body is not JSON (`response.json()` rejects), or an ok JSON
response carrying the optional `models` field (list of `name`s, ollama) and
the optional `data` field (list of `id`s, lmstudio/openai). -/
inductive ModelsProbeOutcome where
  | netError
  | httpError
  | okBadJson
  | okJson (models : Option (List String)) (data : Option (List String))
deriving DecidableEq, Repr

/-- An entry of the list `listModels` returns (`{id, name}`). -/
structure LocalModelEntry where
  id : String
  name : String
deriving DecidableEq, Repr

/-- The per-dialect `transform` of `listModels`:
`data.models?.map(m => ({id: m.name, name: m.name})) || []` for ollama and
`data.data?.map(m => ({id: m.id, name: m.id})) || []` for the others. -/
def modelsTransform : LocalFormat → Option (List String) → Option (List String) →
    List LocalModelEntry
  | LocalFormat.ollama, models, _ =>
    (models.getD []).map (fun n => { id := n, name := n })
  | LocalFormat.lmstudio, _, data =>
    (data.getD []).map (fun i => { id := i, name := i })
  | LocalFormat.openai, _, data =>
    (data.getD []).map (fun i => { id := i, name := i })

/-- Body of one iteration of the probing loop in `listModels`, with the
thrown exceptions (rejected fetch, rejected `response.json()`) explicit:
`ok none` is a non-ok response (the loop just continues), `ok (some l)` is
a successful probe returning the transformed list. -/
def probeModels (oracle : String → ModelsProbeOutcome) (endpoint : String)
    (f : LocalFormat) : Except String (Option (List LocalModelEntry)) :=
  match oracle (modelsUrl endpoint f) with
  | ModelsProbeOutcome.netError => Except.error "fetch failed"
  | ModelsProbeOutcome.httpError => Except.ok none
  | ModelsProbeOutcome.okBadJson => Except.error jsonParseFailureMsg
  | ModelsProbeOutcome.okJson ms ds => Except.ok (some (modelsTransform f ms ds))

/-- The probing loop of `listModels`: the `catch { continue }` absorbs every
probe exception, a non-ok response also just continues, and falling off the
loop returns `[]`. -/
def listModelsGo (oracle : String → ModelsProbeOutcome) (endpoint : String) :
    List LocalFormat → Except String (List LocalModelEntry)
  | [] => Except.ok []
  | f :: rest =>
    match probeModels oracle endpoint f with
    | Except.ok (some l) => Except.ok l
    | Except.ok none => listModelsGo oracle endpoint rest
    | Except.error _ => listModelsGo oracle endpoint rest

/-- `LocalStreamHandler.listModels`. -/
def listModels (oracle : String → ModelsProbeOutcome) (endpoint : String) :
    Except String (List LocalModelEntry) :=
  listModelsGo oracle endpoint
    [LocalFormat.ollama, LocalFormat.lmstudio, LocalFormat.openai]

/-- Prompt argument of `generateCompletion`:
`string | ChatCompletionRequestMessage[]`. -/
inductive PromptArg where
  | str (s : String)
  | msgs (l : List ChatMessage)
deriving DecidableEq, Repr

/-- `Array.isArray(prompt) ? prompt : [{role: 'user', content: prompt}]`. -/
def promptMessages : PromptArg → List ChatMessage
  | PromptArg.str s => [{ role := "user", content := s }]
  | PromptArg.msgs l => l

/-- The chat-completion request body the remote provider transmits. -/
structure OpenAIChatRequest where
  model : String
  messages : List ChatMessage
  n : Nat
  stream : Bool
deriving DecidableEq, Repr

/-- The request object built inside `OpenAIProvider.generateCompletion`:
model falling back to `gpt-4o-mini`, bare prompt wrapped as a user message,
`n` clamped by `Math.min(number, 10)` with `number` defaulting to 1, and
`stream: true`. -/
def buildOpenAIRequest (prompt : PromptArg) (number : Option Nat)
    (model : Option String) : OpenAIChatRequest :=
  { model := jsOrOpt model "gpt-4o-mini"
    messages := promptMessages prompt
    n := Nat.min (number.getD 1) 10
    stream := true }

/-- A JavaScript value produced by a successful `JSON.parse`, abstracted to
what the error path consumes: its rendering `JSON.stringify(v, null, 2)`
(which for the falsy JSON values null, false, 0 and "" coincides with the
string coercion used when the value short-circuits `&&`) and its
truthiness. -/
structure JsValue where
  rendered : String
  truthy : Bool
deriving DecidableEq, Repr

/-- The request info attached to an axios error (`error.request`). -/
structure AxiosRequestInfo where
  hostname : String
  syscall : String
deriving DecidableEq, Repr

/-- The response attached to an axios error, with `data` already read from
the `IncomingMessage` stream into a string (`streamToString`). -/
structure AxiosResponseModel where
  status : Nat
  body : String
deriving DecidableEq, Repr

/-- The caught axios error of `OpenAIProvider.generateCompletion`. -/
structure AxiosErrorModel where
  code : Option String
  request : AxiosRequestInfo
  response : Option AxiosResponseModel
deriving DecidableEq, Repr

/-- What the provider throws: a wrapped `KnownError` with a composed
message, or the original error rethrown unchanged (`throw error`). -/
inductive OpenAIFailure where
  | known (msg : String)
  | raw (e : AxiosErrorModel)
deriving DecidableEq, Repr

/-- Models `JSON.stringify` on a plain string (quote and escape; the
principal escapes suffice for the strings the development evaluates). -/
def jsStringifyStr (s : String) : String :=
  "\"" ++ String.join (s.toList.map (fun c =>
    if c = '"' then "\\\"" else if c = '\\' then "\\\\"
    else if c = '\n' then "\\n" else String.singleton c)) ++ "\""

/-- The `messageString` of the error path: the rendering of the parsed JSON
body when `JSON.parse` succeeds, otherwise the raw string is stringified
when truthy; an empty raw body short-circuits `&&` and contributes the
empty string. -/
def openaiMessageString (parse : String → Option JsValue) (body : String) : String :=
  match parse body with
  | some v => v.rendered
  | none => if body = "" then "" else jsStringifyStr body

/-- Truthiness of `message` in the error path (`response && message`). -/
def openaiMessageTruthy (parse : String → Option JsValue) (body : String) : Bool :=
  match parse body with
  | some v => v.truthy
  | none => body != ""

/-- The `ENOTFOUND` connectivity message. -/
def connectivityMsg (request : AxiosRequestInfo) : String :=
  "Error connecting to " ++ request.hostname ++ " (" ++ request.syscall ++
    "). Are you connected to the internet?"

/-- The 429 quota message (the dedented template literal), with the
`messageString` appended. -/
def quota429Text (msgString : String) : String :=
  "Request to OpenAI failed with status 429. This is due to incorrect billing setup or excessive quota usage. Please follow this guide to fix it: https://help.openai.com/en/articles/6891831-error-code-429-you-exceeded-your-current-quota-please-check-your-plan-and-billing-details\n\nYou can activate billing here: https://platform.openai.com/account/billing/overview . Make sure to add a payment method if not under an active grant from OpenAI.\n\nFull message from OpenAI:" ++
    "\n\n" ++ msgString ++ "\n"

/-- The generic upstream message for another non-2xx status. -/
def upstreamText (status : Nat) (msgString : String) : String :=
  "Request to OpenAI failed with status " ++ toString status ++ ":" ++
    "\n\n" ++ msgString ++ "\n"

/-- The `catch` block of `OpenAIProvider.generateCompletion`: `ENOTFOUND`
first, then the 429 branch (which needs a response but not a truthy
message), then the generic branch guarded by `response && message`, else
the original error is rethrown. -/
def classifyOpenAIError (parse : String → Option JsValue)
    (e : AxiosErrorModel) : OpenAIFailure :=
  if e.code = some "ENOTFOUND" then
    OpenAIFailure.known (connectivityMsg e.request)
  else
    match e.response with
    | none => OpenAIFailure.raw e
    | some r =>
      if r.status = 429 then
        OpenAIFailure.known (quota429Text (openaiMessageString parse r.body))
      else if openaiMessageTruthy parse r.body then
        OpenAIFailure.known (upstreamText r.status (openaiMessageString parse r.body))
      else
        OpenAIFailure.raw e

/-- Outcome of `openAi.createChatCompletion`: the response stream (an
opaque handle) or a thrown axios error. -/
inductive TransportOutcome where
  | success (streamId : Nat)
  | failure (e : AxiosErrorModel)

/-- `OpenAIProvider.generateCompletion`: transmit the built request, return
the stream unmodified on success, classify the caught error otherwise. -/
def generateCompletionOpenAI (parse : String → Option JsValue)
    (transport : OpenAIChatRequest → TransportOutcome)
    (prompt : PromptArg) (number : Option Nat) (model : Option String) :
    Except OpenAIFailure Nat :=
  match transport (buildOpenAIRequest prompt number model) with
  | TransportOutcome.success s => Except.ok s
  | TransportOutcome.failure e => Except.error (classifyOpenAIError parse e)

/-- `const localModel = model || key` of `LocalProvider.generateCompletion`. -/
def resolveLocalModel (model : Option String) (key : String) : String :=
  jsOrOpt model key

/-- `const localEndpoint = apiEndpoint || 'http://localhost:11434'`. -/
def resolveLocalEndpoint (apiEndpoint : String) : String :=
  jsOrStr apiEndpoint "http://localhost:11434"

/-- The `KnownError` message wrapping a negotiator failure in
`LocalProvider.generateCompletion`. -/
def localFailureMsg (endpoint cause : String) : String :=
  "Failed to connect to local model server at " ++ endpoint ++
    ". Make sure your local model server (Ollama, LM Studio, etc.) is running.\n\nError: " ++
    cause

/-- `LocalProvider.generateCompletion`: resolve model and endpoint, build
the message list, delegate to the negotiator, and wrap any failure into a
single user-facing error. -/
def localGenerateCompletion (fetch : ChatFetch) (prompt : PromptArg)
    (_number : Option Nat) (model : Option String) (key : String)
    (apiEndpoint : String) : Except String LocalStream :=
  let localModel := resolveLocalModel model key
  let localEndpoint := resolveLocalEndpoint apiEndpoint
  let messages := promptMessages prompt
  match createStream fetch localEndpoint localModel messages none with
  | Except.ok r => Except.ok r.stream
  | Except.error e => Except.error (localFailureMsg localEndpoint e)

/-- The `Model` record of the provider interface (`created` is the
`Date.now()` timestamp, supplied as the parameter `now`). -/
structure ModelRecord where
  id : String
  object : String
  created : Nat
  owned_by : String
deriving DecidableEq, Repr

/-- `LocalProvider.getDefaultModels`: the static built-in catalog. -/
def getDefaultModels (now : Nat) : List ModelRecord :=
  [{ id := "llama2", object := "model", created := now, owned_by := "local" },
   { id := "llama2:7b", object := "model", created := now, owned_by := "local" },
   { id := "llama2:13b", object := "model", created := now, owned_by := "local" },
   { id := "llama2:70b", object := "model", created := now, owned_by := "local" },
   { id := "llama2:7b-chat", object := "model", created := now, owned_by := "local" },
   { id := "llama2:13b-chat", object := "model", created := now, owned_by := "local" },
   { id := "llama2:70b-chat", object := "model", created := now, owned_by := "local" },
   { id := "codellama", object := "model", created := now, owned_by := "local" },
   { id := "codellama:7b", object := "model", created := now, owned_by := "local" },
   { id := "codellama:34b-code-q5_K_M", object := "model", created := now, owned_by := "local" },
   { id := "codellama:13b", object := "model", created := now, owned_by := "local" },
   { id := "codellama:34b", object := "model", created := now, owned_by := "local" },
   { id := "nous-hermes2:34b", object := "model", created := now, owned_by := "local" },
   { id := "nous-hermes:34b-instruct", object := "model", created := now, owned_by := "local" }]

/-- `LocalProvider.getModels`: resolve the endpoint, call the negotiator's
`listModels`, map the entries into `Model` records (`model.id ||
model.name`), and fall back to the default catalog only when `listModels`
throws. -/
def localGetModels (oracle : String → ModelsProbeOutcome) (now : Nat)
    (apiEndpoint : String) : Except String (List ModelRecord) :=
  let localEndpoint := resolveLocalEndpoint apiEndpoint
  match listModels oracle localEndpoint with
  | Except.ok models =>
    Except.ok (models.map (fun m =>
      { id := jsOrStr m.id m.name, object := "model", created := now,
        owned_by := "local" }))
  | Except.error _ => Except.ok (getDefaultModels now)

/-- The two provider singletons of the registry in `providers.ts`. -/
inductive ProviderInst where
  | openaiProvider
  | localProvider
deriving DecidableEq, Repr

/-- The `name` field of each provider instance. -/
def providerName : ProviderInst → String
  | ProviderInst.openaiProvider => "openai"
  | ProviderInst.localProvider => "local"

/-- The `providers` record: `{openai: new OpenAIProvider(), local: new
LocalProvider()}`. -/
def providersRegistry : List (String × ProviderInst) :=
  [("openai", ProviderInst.openaiProvider), ("local", ProviderInst.localProvider)]

/-- `getProvider`: registry lookup, throwing `Unknown provider: <name>` on a
miss. -/
def getProvider (name : String) : Except String ProviderInst :=
  match providersRegistry.lookup name with
  | some p => Except.ok p
  | none => Except.error ("Unknown provider: " ++ name)

/-- A transport on which every chat request fails with a network error. -/
def allNetErrorFetch : ChatFetch := fun _ _ => FetchOutcome.netError "fetch failed"

/-- A transport whose streaming responses carry a non-stream content type
and whose non-streaming responses succeed with JSON body `[1,2]`. -/
def nonStreamOllamaFetch : ChatFetch := fun _ b =>
  if b.stream then FetchOutcome.resp true true "application/json" "OK" none
  else FetchOutcome.resp true true "application/json" "OK" (some "[1,2]")

/-- A transport that accepts every chat request with an ndjson stream. -/
def allOkStreamFetch : ChatFetch := fun _ _ =>
  FetchOutcome.resp true true "application/x-ndjson" "OK" none

/-- A model-listing oracle on which every probe's fetch rejects. -/
def allNetErrorModels : String → ModelsProbeOutcome :=
  fun _ => ModelsProbeOutcome.netError

/-- Helper: the retry path always tags its result with the format it was
given. -/
theorem ollamaNonStreamRetry_tag (fetch : ChatFetch) (url : String)
    (body : ChatBody) (f : LocalFormat) :
    Except.map (fun r => r.format) (ollamaNonStreamRetry fetch url body f) =
      Except.map (fun _ => f) (ollamaNonStreamRetry fetch url body f) := by
  unfold ollamaNonStreamRetry
  cases fetch url body with
  | netError m => rfl
  | resp ok hb ct st js =>
    cases ok with
    | false => rfl
    | true => cases js <;> rfl

/-- Helper: a dialect attempt always tags its result with the attempted
format. -/
theorem createStreamWithFormat_tag (fetch : ChatFetch) (endpoint model : String)
    (messages : List ChatMessage) (f : LocalFormat) :
    Except.map (fun r => r.format)
        (createStreamWithFormat fetch endpoint model messages f) =
      Except.map (fun _ => f)
        (createStreamWithFormat fetch endpoint model messages f) := by
  rcases h : fetch (chatUrl endpoint f) (chatBody model messages true f) with
    m | ⟨ok, hb, ct, st, js⟩ <;> simp only [createStreamWithFormat, h]
  · rfl
  · split
    · split
      · rfl
      · exact ollamaNonStreamRetry_tag ..
    · split
      · rfl
      · split
        · exact ollamaNonStreamRetry_tag ..
        · rfl

/-- Claim C6: the registry maps "openai" and "local" to two distinct
provider instances carrying those names (lookup is a pure function, so the
same instance is returned on every call), and lookup of an unregistered
name such as "gemini" raises the unknown-provider error instead of
returning a default. -/
theorem getProvider_registry :
    getProvider "openai" = Except.ok ProviderInst.openaiProvider ∧
    getProvider "local" = Except.ok ProviderInst.localProvider ∧
    ProviderInst.openaiProvider ≠ ProviderInst.localProvider ∧
    providerName ProviderInst.openaiProvider = "openai" ∧
    providerName ProviderInst.localProvider = "local" ∧
    getProvider "gemini" = Except.error ("Unknown provider: " ++ "gemini") := by
  exact ⟨rfl, rfl, by decide, rfl, rfl, rfl⟩

/-- Claim C7: the transmitted remote request has `n` equal to the minimum of
the requested count (defaulting to 1) and 10 — in particular requesting 50
transmits 10 and `n` never exceeds 10 — the model falls back to
`gpt-4o-mini` when unset (absent or empty), a bare string prompt is wrapped
as a single user message, streaming is enabled, and `generateCompletion`
transmits exactly the request built this way. -/
theorem openai_request_shape (prompt : PromptArg) (number : Option Nat)
    (model : Option String) :
    (buildOpenAIRequest prompt number model).n = Nat.min (number.getD 1) 10 ∧
    (buildOpenAIRequest prompt (some 50) model).n = 10 ∧
    (buildOpenAIRequest prompt number model).n ≤ 10 ∧
    (buildOpenAIRequest prompt number none).model = "gpt-4o-mini" ∧
    (buildOpenAIRequest prompt number (some "")).model = "gpt-4o-mini" ∧
    (∀ s, (buildOpenAIRequest (PromptArg.str s) number model).messages =
      [{ role := "user", content := s }]) ∧
    (buildOpenAIRequest prompt number model).stream = true ∧
    (∀ parse transport,
      generateCompletionOpenAI parse transport prompt number model =
        match transport (buildOpenAIRequest prompt number model) with
        | TransportOutcome.success s => Except.ok s
        | TransportOutcome.failure e =>
          Except.error (classifyOpenAIError parse e)) := by
  exact ⟨rfl, rfl, Nat.min_le_right _ _, rfl, rfl, fun _ => rfl, rfl,
    fun _ _ => rfl⟩

/-- Claim C1 (code evaluated at the failing input): when every model-listing
probe fails, `LocalProvider.getModels` returns the empty list — not the
built-in catalog, which is non-empty and contains `llama2` and `codellama`.
The catch branch returning the catalog is unreachable because `listModels`
absorbs every probe failure into `[]` without throwing. -/
theorem localGetModels_all_probes_fail_empty :
    localGetModels allNetErrorModels 0 "" = Except.ok [] ∧
    "llama2" ∈ (getDefaultModels 0).map (fun m => m.id) ∧
    "codellama" ∈ (getDefaultModels 0).map (fun m => m.id) ∧
    getDefaultModels 0 ≠ [] := by
  exact ⟨rfl, by decide, by decide, by decide⟩

/-- Claim C10: the local provider has no default model name — with the model
argument and the key both absent or empty the resolved model is the empty
string, every dialect's transmitted body carries that empty model field,
and `LocalProvider.generateCompletion` still proceeds with negotiation and
succeeds (here against a server accepting the ollama dialect) rather than
raising or substituting a built-in default. -/
theorem local_no_default_model :
    resolveLocalModel none "" = "" ∧
    resolveLocalModel (some "") "" = "" ∧
    (∀ f msgs strm, (chatBody "" msgs strm f).model = "") ∧
    localGenerateCompletion allOkStreamFetch (PromptArg.str "hi") none none "" "" =
      Except.ok (LocalStream.network (chatUrl "http://localhost:11434" LocalFormat.ollama)
        (chatBody "" [{ role := "user", content := "hi" }] true LocalFormat.ollama)) := by
  refine ⟨rfl, rfl, fun f msgs strm => ?_, ?_⟩
  · cases f <;> rfl
  · rfl

/-- Claim C2: with no pinned format, `createStream` attempts the dialects
strictly sequentially in the fixed order ollama, lmstudio, openai — the
first successful attempt is returned and a failure always moves to the next
dialect; every returned stream is tagged with the dialect that produced it;
and a pinned format makes `createStream` attempt exactly that one dialect. -/
theorem createStream_order_and_pinning (fetch : ChatFetch)
    (endpoint model : String) (messages : List ChatMessage) :
    (∀ f, createStream fetch endpoint model messages (some f) =
      createStreamWithFormat fetch endpoint model messages f) ∧
    createStream fetch endpoint model messages none =
      (match createStreamWithFormat fetch endpoint model messages LocalFormat.ollama with
       | Except.ok r => Except.ok r
       | Except.error _ =>
         match createStreamWithFormat fetch endpoint model messages LocalFormat.lmstudio with
         | Except.ok r => Except.ok r
         | Except.error _ =>
           match createStreamWithFormat fetch endpoint model messages LocalFormat.openai with
           | Except.ok r => Except.ok r
           | Except.error _ => Except.error (negotiationFailedMsg endpoint)) ∧
    (∀ f, Except.map (fun r => r.format)
        (createStreamWithFormat fetch endpoint model messages f) =
      Except.map (fun _ => f)
        (createStreamWithFormat fetch endpoint model messages f)) := by
  refine ⟨fun f => rfl, ?_, fun f => createStreamWithFormat_tag ..⟩
  show tryFormats fetch endpoint model messages
    [LocalFormat.ollama, LocalFormat.lmstudio, LocalFormat.openai] = _
  rcases h1 : createStreamWithFormat fetch endpoint model messages LocalFormat.ollama with e1 | r1 <;>
    rcases h2 : createStreamWithFormat fetch endpoint model messages LocalFormat.lmstudio with e2 | r2 <;>
    rcases h3 : createStreamWithFormat fetch endpoint model messages LocalFormat.openai with e3 | r3 <;>
    simp [tryFormats, h1, h2, h3]

/-- Claim C3 counterexample: with a pinned dialect, a dialect-level failure
is surfaced directly to the caller — here the raw fetch rejection message
`fetch failed`, which does not name the endpoint and is not the aggregated
error. -/
theorem createStream_pinned_failure_direct :
    createStream allNetErrorFetch "http://h" "m" [] (some LocalFormat.ollama) =
      Except.error "fetch failed" ∧
    strContains "fetch failed" "http://h" = false ∧
    "fetch failed" ≠ negotiationFailedMsg "http://h" := by
  exact ⟨rfl, by decide, by decide⟩

/-- Claim C3 (amended): when no dialect is pinned and all three dialects
fail, `createStream` raises the single aggregated error naming the endpoint
and listing the supported dialects; a pinned dialect's failure, by
contrast, propagates directly. -/
theorem createStream_exhausted_aggregated (fetch : ChatFetch)
    (endpoint model : String) (messages : List ChatMessage)
    (h1 : ∃ e, createStreamWithFormat fetch endpoint model messages LocalFormat.ollama =
      Except.error e)
    (h2 : ∃ e, createStreamWithFormat fetch endpoint model messages LocalFormat.lmstudio =
      Except.error e)
    (h3 : ∃ e, createStreamWithFormat fetch endpoint model messages LocalFormat.openai =
      Except.error e) :
    createStream fetch endpoint model messages none =
      Except.error (negotiationFailedMsg endpoint) := by
  obtain ⟨e1, h1⟩ := h1
  obtain ⟨e2, h2⟩ := h2
  obtain ⟨e3, h3⟩ := h3
  show tryFormats fetch endpoint model messages
    [LocalFormat.ollama, LocalFormat.lmstudio, LocalFormat.openai] = _
  simp [tryFormats, h1, h2, h3]

/-- Witness for C3's amended theorem at a transport on which every request
fails. -/
theorem createStream_exhausted_aggregated_witness :
    createStream allNetErrorFetch "http://localhost:11434" "llama2" [] none =
      Except.error (negotiationFailedMsg "http://localhost:11434") :=
  createStream_exhausted_aggregated allNetErrorFetch "http://localhost:11434"
    "llama2" [] ⟨"fetch failed", rfl⟩ ⟨"fetch failed", rfl⟩ ⟨"fetch failed", rfl⟩

/-- Claim C4: when the ollama streaming request returns a successful
response with a body whose content type is neither ndjson nor event-stream,
the negotiator reissues the identical request with `stream := false` and,
on a successful JSON response, returns the synthesized single-chunk stream
`data: <json>\n`; a successful response for a non-ollama dialect is
accepted as the stream immediately, with no condition on its content
type. -/
theorem ollama_content_type_fallback (fetch : ChatFetch)
    (endpoint model : String) (messages : List ChatMessage)
    (ct st : String) (js1 : Option String) (hb2 : Bool) (ct2 st2 j : String)
    (hct : ctIsStream ct = false)
    (h1 : fetch (chatUrl endpoint LocalFormat.ollama)
        (chatBody model messages true LocalFormat.ollama) =
      FetchOutcome.resp true true ct st js1)
    (h2 : fetch (chatUrl endpoint LocalFormat.ollama)
        { chatBody model messages true LocalFormat.ollama with stream := false } =
      FetchOutcome.resp true hb2 ct2 st2 (some j)) :
    createStreamWithFormat fetch endpoint model messages LocalFormat.ollama =
      Except.ok { stream := LocalStream.synthesized ("data: " ++ j ++ "\n"),
                  format := LocalFormat.ollama } ∧
    (∀ f ct' st' js', f ≠ LocalFormat.ollama →
      fetch (chatUrl endpoint f) (chatBody model messages true f) =
        FetchOutcome.resp true true ct' st' js' →
      createStreamWithFormat fetch endpoint model messages f =
        Except.ok { stream := (LocalStream.network (chatUrl endpoint f)
            (chatBody model messages true f)), format := f }) := by
  constructor
  · simp only [createStreamWithFormat, h1, Bool.and_self, beq_self_eq_true,
      Bool.and_true, if_true, hct, ollamaNonStreamRetry, h2, if_false,
      Bool.false_eq_true]
  · intro f ct' st' js' hf hresp
    have hbeq : (f == LocalFormat.ollama) = false := by
      cases f <;> simp_all
    simp only [createStreamWithFormat, hresp, hbeq, Bool.and_false,
      Bool.and_true, Bool.and_self, if_false, if_true, Bool.false_eq_true]

/-- Witness for C4 against a concrete server that answers streaming
requests with `application/json` and non-streaming requests with the JSON
body `[1,2]`, and for the non-ollama part against its lmstudio endpoint. -/
theorem ollama_content_type_fallback_witness :
    createStreamWithFormat nonStreamOllamaFetch "http://e" "m" [] LocalFormat.ollama =
      Except.ok { stream := LocalStream.synthesized ("data: " ++ "[1,2]" ++ "\n"),
                  format := LocalFormat.ollama } ∧
    createStreamWithFormat nonStreamOllamaFetch "http://e" "m" [] LocalFormat.lmstudio =
      Except.ok { stream := (LocalStream.network (chatUrl "http://e" LocalFormat.lmstudio)
          (chatBody "m" [] true LocalFormat.lmstudio)), format := LocalFormat.lmstudio } := by
  have h := ollama_content_type_fallback nonStreamOllamaFetch "http://e" "m" []
    "application/json" "OK" none true "application/json" "OK" "[1,2]"
    (by decide) rfl rfl
  exact ⟨h.1, h.2 LocalFormat.lmstudio "application/json" "OK" none (by decide) rfl⟩

/-- Helper: the probing loop of `listModels` never propagates an error. -/
theorem listModelsGo_isOk (oracle : String → ModelsProbeOutcome)
    (endpoint : String) (fs : List LocalFormat) :
    ∃ l, listModelsGo oracle endpoint fs = Except.ok l := by
  induction fs with
  | nil => exact ⟨[], rfl⟩
  | cons f rest ih =>
    rcases h : oracle (modelsUrl endpoint f) with _ | _ | _ | ⟨ms, ds⟩ <;>
      simp only [listModelsGo, probeModels, h]
    · exact ih
    · exact ih
    · exact ih
    · exact ⟨_, rfl⟩

/-- Claim C9: `listModels` is total and never raises — a probe that fails
(rejected fetch, non-ok status, or unparsable JSON body) is silently
skipped, an ok JSON body missing the expected `models`/`data` field is
transformed to the empty list, and when no probe succeeds the function
returns the empty sequence. -/
theorem listModels_never_raises (oracle : String → ModelsProbeOutcome)
    (endpoint : String) :
    (∃ l, listModels oracle endpoint = Except.ok l) ∧
    ((∀ f ms ds, oracle (modelsUrl endpoint f) ≠ ModelsProbeOutcome.okJson ms ds) →
      listModels oracle endpoint = Except.ok []) ∧
    (oracle (modelsUrl endpoint LocalFormat.ollama) =
        ModelsProbeOutcome.okJson none none →
      listModels oracle endpoint = Except.ok []) := by
  refine ⟨listModelsGo_isOk .., ?_, ?_⟩
  · intro h
    have step : ∀ f rest, listModelsGo oracle endpoint (f :: rest) =
        listModelsGo oracle endpoint rest := by
      intro f rest
      rcases hf : oracle (modelsUrl endpoint f) with _ | _ | _ | ⟨ms, ds⟩ <;>
        simp only [listModelsGo, probeModels, hf]
      exact absurd hf (h f ms ds)
    show listModelsGo oracle endpoint _ = _
    rw [step, step, step]
    rfl
  · intro h
    show listModelsGo oracle endpoint _ = _
    simp only [listModelsGo, probeModels, h, modelsTransform, Option.getD_none,
      List.map_nil]

/-- Witness for C9 at an oracle on which every probe's fetch rejects. -/
theorem listModels_never_raises_witness :
    listModels allNetErrorModels "http://e" = Except.ok [] :=
  (listModels_never_raises allNetErrorModels "http://e").2.1
    (fun _ _ _ h => ModelsProbeOutcome.noConfusion h)

/-- Claim C8: the local provider resolves the effective model with
precedence explicit-model over key-as-model (the key is used exactly when
the model argument is absent or empty), resolves the endpoint to the
default `http://localhost:11434` exactly when the caller's endpoint is
empty (the embedding of an omitted endpoint), and converts any negotiator
failure into a single user-facing error naming the resolved endpoint and
the underlying cause. -/
theorem local_resolution_and_error_wrapping :
    (∀ k, resolveLocalModel none k = k) ∧
    (∀ k, resolveLocalModel (some "") k = k) ∧
    (∀ s k, s ≠ "" → resolveLocalModel (some s) k = s) ∧
    resolveLocalEndpoint "" = "http://localhost:11434" ∧
    (∀ ep, ep ≠ "" → resolveLocalEndpoint ep = ep) ∧
    (∀ fetch prompt number model key apiEndpoint e,
      createStream fetch (resolveLocalEndpoint apiEndpoint)
          (resolveLocalModel model key) (promptMessages prompt) none =
        Except.error e →
      localGenerateCompletion fetch prompt number model key apiEndpoint =
        Except.error (localFailureMsg (resolveLocalEndpoint apiEndpoint) e)) := by
  refine ⟨fun k => rfl, fun k => rfl, ?_, rfl, ?_, ?_⟩
  · intro s k hs
    simp [resolveLocalModel, jsOrOpt, jsOrStr, hs]
  · intro ep hep
    simp [resolveLocalEndpoint, jsOrStr, hep]
  · intro fetch prompt number model key apiEndpoint e h
    simp only [localGenerateCompletion, h]

/-- Witness for C8: resolution at concrete arguments, and the wrapped error
when the negotiator fails against an unreachable default endpoint. -/
theorem local_resolution_witness :
    resolveLocalModel none "llama2" = "llama2" ∧
    resolveLocalModel (some "mistral") "llama2" = "mistral" ∧
    resolveLocalEndpoint "http://e" = "http://e" ∧
    localGenerateCompletion allNetErrorFetch (PromptArg.str "hi") none none
        "llama2" "" =
      Except.error (localFailureMsg (resolveLocalEndpoint "")
        (negotiationFailedMsg (resolveLocalEndpoint ""))) := by
  have h := local_resolution_and_error_wrapping
  exact ⟨h.1 "llama2", h.2.2.1 "mistral" "llama2" (by decide),
    h.2.2.2.2.1 "http://e" (by decide),
    h.2.2.2.2.2 allNetErrorFetch (PromptArg.str "hi") none none "llama2" ""
      (negotiationFailedMsg (resolveLocalEndpoint "")) rfl⟩

/-- Claim C5 (amended): the remote provider classifies a caught failure as
(a) `ENOTFOUND` into a connectivity error naming the unreachable host, (b)
HTTP 429 into a quota error whose message contains "429" and the
remediation guide, and (c) any other non-2xx response whose body reads to a
truthy message into a generic upstream error carrying the status code and
the rendered body; `generateCompletion` surfaces exactly this
classification of the transport failure. -/
theorem openai_error_classification (parse : String → Option JsValue) :
    (∀ hostname syscall resp,
      classifyOpenAIError parse ⟨some "ENOTFOUND", ⟨hostname, syscall⟩, resp⟩ =
        OpenAIFailure.known ("Error connecting to " ++ hostname ++ " (" ++
          syscall ++ "). Are you connected to the internet?")) ∧
    (∀ code req body, code ≠ some "ENOTFOUND" →
      classifyOpenAIError parse ⟨code, req, some ⟨429, body⟩⟩ =
        OpenAIFailure.known (quota429Text (openaiMessageString parse body))) ∧
    (∀ code req s body, code ≠ some "ENOTFOUND" → s ≠ 429 →
      openaiMessageTruthy parse body = true →
      classifyOpenAIError parse ⟨code, req, some ⟨s, body⟩⟩ =
        OpenAIFailure.known ("Request to OpenAI failed with status " ++
          toString s ++ ":" ++ "\n\n" ++ openaiMessageString parse body ++ "\n")) ∧
    (∀ transport prompt number model e,
      transport (buildOpenAIRequest prompt number model) =
        TransportOutcome.failure e →
      generateCompletionOpenAI parse transport prompt number model =
        Except.error (classifyOpenAIError parse e)) := by
  refine ⟨?_, ?_, ?_, ?_⟩
  · intro hostname syscall resp
    simp [classifyOpenAIError, connectivityMsg]
  · intro code req body hcode
    simp [classifyOpenAIError, hcode]
  · intro code req s body hcode hs htruthy
    simp [classifyOpenAIError, hcode, hs, htruthy, upstreamText]
  · intro transport prompt number model e h
    simp only [generateCompletionOpenAI, h]

/-- Claim C5 counterexample: a non-2xx response (status 500) with an empty
body makes the provider rethrow the original transport error unchanged —
no generic upstream `KnownError` carrying the status is raised, because the
empty message is falsy and fails the `response && message` guard. -/
theorem openai_empty_body_raw_error :
    classifyOpenAIError (fun _ => none)
        ⟨none, ⟨"api.openai.com", "connect"⟩, some ⟨500, ""⟩⟩ =
      OpenAIFailure.raw ⟨none, ⟨"api.openai.com", "connect"⟩, some ⟨500, ""⟩⟩ := by
  rfl

/-- Witness for C5's amended theorem: the three classifications at concrete
errors, with `JSON.parse` failing on the raw bodies. -/
theorem openai_error_classification_witness :
    classifyOpenAIError (fun _ => none)
        ⟨some "ENOTFOUND", ⟨"api.openai.com", "getaddrinfo"⟩, none⟩ =
      OpenAIFailure.known ("Error connecting to " ++ "api.openai.com" ++ " (" ++
        "getaddrinfo" ++ "). Are you connected to the internet?") ∧
    classifyOpenAIError (fun _ => none)
        ⟨none, ⟨"api.openai.com", "connect"⟩, some ⟨429, "over quota"⟩⟩ =
      OpenAIFailure.known
        (quota429Text (openaiMessageString (fun _ => none) "over quota")) ∧
    classifyOpenAIError (fun _ => none)
        ⟨none, ⟨"api.openai.com", "connect"⟩, some ⟨500, "boom"⟩⟩ =
      OpenAIFailure.known ("Request to OpenAI failed with status " ++
        toString 500 ++ ":" ++ "\n\n" ++
        openaiMessageString (fun _ => none) "boom" ++ "\n") := by
  have h := openai_error_classification (fun _ => none)
  exact ⟨h.1 "api.openai.com" "getaddrinfo" none,
    h.2.1 none ⟨"api.openai.com", "connect"⟩ "over quota" (by decide),
    h.2.2.1 none ⟨"api.openai.com", "connect"⟩ 500 "boom"
      (by decide) (by decide) (by decide)⟩

end AiShell
